import Mathlib

/-!
Verification of the logging subsystem of the phishing-detection repository,
file src/utils/logger.py: a shallow embedding of basic Python logging
(dictConfig semantics, the module registry, handler routing) together with
the repository functions setup_logging, get_logger, setup_ml_logging and the
module-import auto-bootstrap, followed by theorems settling the spec claims.
-/

set_option maxHeartbeats 1000000

namespace PhishLog

/-- Numeric value of a standard severity name, as logging._checkLevel does for
the names that appear in this configuration. Unknown names yield none (the
real function raises ValueError, which dictConfig propagates). -/
def levelNat : String → Option Nat
  | "DEBUG" => some 10
  | "INFO" => some 20
  | "WARNING" => some 30
  | "ERROR" => some 40
  | "CRITICAL" => some 50
  | _ => none

/-- The attributes of the Python logging module that getattr(logging, s)
resolves to an integer level: used by get_logger for its override. -/
def pyLevelAttr : String → Option Nat
  | "NOTSET" => some 0
  | "DEBUG" => some 10
  | "INFO" => some 20
  | "WARN" => some 30
  | "WARNING" => some 30
  | "ERROR" => some 40
  | "CRITICAL" => some 50
  | "FATAL" => some 50
  | _ => none

/-- ASCII-faithful embedding of str.lower(), character by character. -/
def lowerStr (s : String) : String := String.mk (s.data.map Char.toLower)

/-- ASCII-faithful embedding of str.upper(), character by character. -/
def upperStr (s : String) : String := String.mk (s.data.map Char.toUpper)

/-- A configured handler (sink) instance: class, its own threshold, formatter
name, and for rotating file handlers the file parameters from the config. -/
structure Handler where
  hname : String
  cls : String
  level : Nat
  formatter : String
  stream : Option String
  filename : Option String
  maxBytes : Option Nat
  backupCount : Option Nat
  encoding : Option String
  deriving Repr, DecidableEq

/-- One entry of the process-wide logger registry: own level (0 = NOTSET),
attached handler instances, propagation flag. -/
structure LoggerRec where
  level : Nat
  handlers : List Handler
  propagate : Bool
  deriving Repr, DecidableEq

/-- The structlog process-wide configuration installed by structlog.configure
in the json_logs branch of setup_logging. -/
structure SLCfg where
  processors : List String
  contextClass : String
  loggerFactory : String
  wrapperClass : String
  cacheLoggerOnFirstUse : Bool
  deriving Repr, DecidableEq

/-- The structlog configuration value built in setup_logging when json_logs
is true: JSON renderer, ISO timestamps, stdlib logger factory. -/
def structlogJsonCfg : SLCfg :=
  { processors :=
      ["structlog.stdlib.filter_by_level",
       "structlog.stdlib.add_logger_name",
       "structlog.stdlib.add_log_level",
       "structlog.stdlib.PositionalArgumentsFormatter",
       "structlog.processors.TimeStamper(fmt=iso)",
       "structlog.processors.StackInfoRenderer",
       "structlog.processors.format_exc_info",
       "structlog.processors.JSONRenderer"],
    contextClass := "dict",
    loggerFactory := "structlog.stdlib.LoggerFactory",
    wrapperClass := "structlog.stdlib.BoundLogger",
    cacheLoggerOnFirstUse := true }

/-- Process-wide mutable state touched by the logging module: the logger
registry (keyed by name, the root logger is the empty name), the structlog
configuration if any, and the warnings filters installed so far. -/
structure PState where
  loggers : List (String × LoggerRec)
  structlogCfg : Option SLCfg
  warnFilters : List (String × String)
  deriving Repr, DecidableEq

/-- Filesystem aspects the subsystem touches: whether the logs directory
exists, and whether creating it would be permitted. -/
structure FS where
  dirExists : Bool
  mkdirAllowed : Bool
  deriving Repr, DecidableEq

/-- Lookup in the registry association list. -/
def lookupRec : List (String × LoggerRec) → String → Option LoggerRec
  | [], _ => none
  | (k, v) :: rest, n => if k == n then some v else lookupRec rest n

/-- Insert or replace the entry for a key in the registry. -/
def upsert : List (String × LoggerRec) → String → LoggerRec → List (String × LoggerRec)
  | [], k, v => [(k, v)]
  | (a, b) :: rest, k, v =>
    if a == k then (k, v) :: rest else (a, b) :: upsert rest k v

/-- A logger never configured and never looked up behaves as NOTSET level,
no handlers, propagate true (the Python Logger defaults). -/
def defaultRec : LoggerRec := { level := 0, handlers := [], propagate := true }

/-- The registry view of logging.getLogger(name): the stored record, or the
default record when the name was never configured. -/
def getLoggerRec (st : PState) (name : String) : LoggerRec :=
  (lookupRec st.loggers name).getD defaultRec

/-- logging.getLogger(name) as a state transformer: makes sure the registry
has an entry for the name. -/
def ensureLogger (st : PState) (name : String) : PState :=
  match lookupRec st.loggers name with
  | some _ => st
  | none => { st with loggers := upsert st.loggers name defaultRec }

/-- logging.getLogger(name).setLevel(lvl). -/
def setLoggerLevel (st : PState) (name : String) (lvl : Nat) : PState :=
  let st := ensureLogger st name
  { st with loggers := upsert st.loggers name { getLoggerRec st name with level := lvl } }

/-- The state of a freshly started Python process: only the root logger
exists, at its default WARNING level, with no handlers. -/
def initState : PState :=
  { loggers := [("", { level := 30, handlers := [], propagate := true })],
    structlogCfg := none,
    warnFilters := [] }

/-- A handler entry of the dictConfig handlers section, before instantiation:
levels are still strings here, converted (and validated) on application. -/
structure HandlerCfg where
  hname : String
  cls : String
  level : String
  formatter : String
  stream : Option String
  filename : Option String
  maxBytes : Option Nat
  backupCount : Option Nat
  encoding : Option String
  deriving Repr, DecidableEq

/-- A logger entry of the dictConfig loggers section. A missing handlers key
still clears existing handlers (dictConfig removes them unconditionally in
non-incremental mode) but attaches none. -/
structure LoggerCfg where
  handlers : Option (List String)
  level : Option String
  propagate : Option Bool
  deriving Repr, DecidableEq

/-- The parts of the dictConfig dictionary this configuration uses. -/
structure DictCfg where
  formatters : List (String × String)
  handlersCfg : List HandlerCfg
  loggersCfg : List (String × LoggerCfg)
  deriving Repr, DecidableEq

/-- The literal configuration dictionary built inside setup_logging, with the
level parameter, resolved log file path and the two mode flags filled in. -/
def buildConfig (level : String) (log_file : String) (use_rich json_logs : Bool) : DictCfg :=
  { formatters :=
      [("detailed",
        "%(asctime)s - %(name)s - %(levelname)s - %(module)s:%(lineno)d - %(message)s"),
       ("simple", "%(levelname)s - %(name)s - %(message)s"),
       ("json", "structlog.stdlib.ProcessorFormatter(JSONRenderer)")],
    handlersCfg :=
      [{ hname := "console",
         cls := if use_rich then "rich.logging.RichHandler" else "logging.StreamHandler",
         level := level, formatter := "simple", stream := some "ext://sys.stdout",
         filename := none, maxBytes := none, backupCount := none, encoding := none },
       { hname := "file",
         cls := "logging.handlers.RotatingFileHandler",
         level := "DEBUG", formatter := if json_logs then "json" else "detailed",
         stream := none, filename := some log_file, maxBytes := some 10485760,
         backupCount := some 5, encoding := some "utf8" },
       { hname := "error_file",
         cls := "logging.handlers.RotatingFileHandler",
         level := "ERROR", formatter := if json_logs then "json" else "detailed",
         stream := none, filename := some "logs/errors.log", maxBytes := some 10485760,
         backupCount := some 3, encoding := some "utf8" }],
    loggersCfg :=
      [("", { handlers := some ["console", "file"],
              level := some level, propagate := some false }),
       ("phishing_detection",
        { handlers := some ["console", "file", "error_file"],
          level := some level, propagate := some false }),
       ("transformers", { handlers := none, level := some "WARNING", propagate := some true }),
       ("urllib3", { handlers := none, level := some "WARNING", propagate := some true }),
       ("requests", { handlers := none, level := some "WARNING", propagate := some true })] }

/-- Instantiating one handler of the config: dictConfig passes the leftover
config keys (stream, filename, maxBytes, ...) as constructor kwargs.
rich.logging.RichHandler accepts neither a stream nor a strm keyword, so a
console entry carrying the stream key fails to instantiate in rich mode
(dictConfig retries with strm once and then raises); logging.StreamHandler
accepts stream. A rotating file handler opens its file eagerly, which fails
when the logs directory does not exist. The level string is then validated
on the constructed handler. -/
def mkHandlerInstance (fs : FS) (hc : HandlerCfg) : Except String Handler :=
  if hc.cls == "rich.logging.RichHandler" && hc.stream.isSome then
    .error "ValueError: Unable to configure handler (RichHandler accepts no stream or strm kwarg)"
  else if hc.cls == "logging.handlers.RotatingFileHandler" && !fs.dirExists then
    .error "FileNotFoundError: logs directory does not exist"
  else
    match levelNat hc.level with
    | none => .error ("ValueError: Unknown level: " ++ hc.level)
    | some lvl =>
      .ok { hname := hc.hname, cls := hc.cls, level := lvl, formatter := hc.formatter,
            stream := hc.stream, filename := hc.filename, maxBytes := hc.maxBytes,
            backupCount := hc.backupCount, encoding := hc.encoding }

/-- Instantiate every handler of the handlers section. -/
def instantiateHandlers (fs : FS) : List HandlerCfg → Except String (List Handler)
  | [] => .ok []
  | hc :: rest => do
    let h ← mkHandlerInstance fs hc
    let hs ← instantiateHandlers fs rest
    pure (h :: hs)

/-- Resolve a list of handler names against the instantiated handlers. -/
def resolveHandlers (insts : List Handler) : List String → Except String (List Handler)
  | [] => .ok []
  | n :: rest =>
    match insts.find? (fun h => h.hname == n) with
    | none => .error ("ValueError: handler " ++ n ++ " not defined")
    | some h => do
      let hs ← resolveHandlers insts rest
      pure (h :: hs)

/-- dictConfig on one logger entry: set the level when given, always replace
the handler list (existing handlers are removed unconditionally), set the
propagation flag when given. -/
def applyOneLogger (insts : List Handler) (st : PState) (p : String × LoggerCfg) :
    Except String PState := do
  let r := getLoggerRec st p.1
  let newLevel ← match p.2.level with
    | none => pure r.level
    | some s =>
      match levelNat s with
      | none => .error ("ValueError: Unknown level: " ++ s)
      | some l => pure l
  let hs ← match p.2.handlers with
    | none => pure ([] : List Handler)
    | some ns => resolveHandlers insts ns
  let newProp := p.2.propagate.getD r.propagate
  let newRec : LoggerRec := { level := newLevel, handlers := hs, propagate := newProp }
  pure { st with loggers := upsert st.loggers p.1 newRec }

/-- dictConfig on each logger entry in order. -/
def applyLoggerCfgs (insts : List Handler) (st : PState) :
    List (String × LoggerCfg) → Except String PState
  | [] => .ok st
  | p :: rest => do
    let st ← applyOneLogger insts st p
    applyLoggerCfgs insts st rest

/-- logging.config.dictConfig: instantiate the handlers (levels validated,
files opened), then configure each listed logger. -/
def applyDictConfig (cfg : DictCfg) (fs : FS) (st : PState) : Except String PState := do
  let insts ← instantiateHandlers fs cfg.handlersCfg
  applyLoggerCfgs insts st cfg.loggersCfg

/-- The default log file path used when the log_file argument is None. -/
def defaultLogFile : String := "logs/phishing_detection.log"

/-- setup_logging(level, log_file, use_rich, json_logs): pick the default log
file when none is given, configure structlog in the json_logs branch, build
the configuration dictionary and apply it through dictConfig. Filesystem and
validation errors are propagated, never swallowed. -/
def setup_logging (level : String) (log_file : Option String)
    (use_rich json_logs : Bool) (fs : FS) (st : PState) : Except String PState := do
  let logFile := log_file.getD defaultLogFile
  let st := if json_logs then { st with structlogCfg := some structlogJsonCfg } else st
  let cfg := buildConfig level logFile use_rich json_logs
  applyDictConfig cfg fs st

/-- get_logger(name, level): look the handle up in the process registry and,
when a non-empty level string is supplied, force that logger level to
getattr(logging, level.upper()). -/
def get_logger (name : String) (level : Option String) (st : PState) :
    Except String (PState × String) :=
  let st := ensureLogger st name
  match level with
  | none => .ok (st, name)
  | some l =>
    if l == "" then .ok (st, name)
    else
      match pyLevelAttr (upperStr l) with
      | none => .error "AttributeError"
      | some n => .ok (setLoggerLevel st name n, name)

/-- setup_ml_logging: install the three warnings filters (filterwarnings
inserts each new filter at the front of the list, so after the three calls
the torch filter is first) and force the transformers, torch and urllib3
loggers to WARNING. -/
def setup_ml_logging (st : PState) : PState :=
  let st := { st with warnFilters :=
      [("UserWarning", "torch"), ("FutureWarning", "transformers"),
       ("UserWarning", "transformers")] ++ st.warnFilters }
  let st := setLoggerLevel st "transformers" 30
  let st := setLoggerLevel st "torch" 30
  setLoggerLevel st "urllib3" 30

/-- The three environment variables the module reads at import. -/
structure Env where
  LOG_LEVEL : Option String
  JSON_LOGS : Option String
  RICH_LOGS : Option String
  deriving Repr, DecidableEq

/-- An environment with none of the three variables set. -/
def defaultEnv : Env := { LOG_LEVEL := none, JSON_LOGS := none, RICH_LOGS := none }

/-- An environment that disables the rich console (RICH_LOGS=false) and
leaves the other two variables unset. -/
def envNoRich : Env := { LOG_LEVEL := none, JSON_LOGS := none, RICH_LOGS := some "false" }

/-- LOGS_DIR.mkdir(exist_ok=True) at module import: no-op when the directory
exists, creates it when allowed, otherwise raises. -/
def mkdirLogs (fs : FS) : Except String FS :=
  if fs.dirExists then .ok fs
  else if fs.mkdirAllowed then .ok { fs with dirExists := true }
  else .error "PermissionError: cannot create logs directory"

/-- Importing the module: create the logs directory, then the auto-bootstrap
guard: when the root logger has no handlers, read the three environment
variables (with their defaults), run setup_logging with them and then
setup_ml_logging; otherwise leave the logging state untouched. -/
def importLoggerModule (env : Env) (fs : FS) (st : PState) :
    Except String (FS × PState) := do
  let fs ← mkdirLogs fs
  if (getLoggerRec st "").handlers.isEmpty then
    let logLevel := env.LOG_LEVEL.getD "INFO"
    let useJson := lowerStr (env.JSON_LOGS.getD "false") == "true"
    let useRich := lowerStr (env.RICH_LOGS.getD "true") == "true"
    let st ← setup_logging logLevel none useRich useJson fs st
    pure (fs, setup_ml_logging st)
  else
    pure (fs, st)

/-- The characters before the last dot of a name, none when it has no dot. -/
def beforeLastDot : List Char → Option (List Char)
  | [] => none
  | c :: rest =>
    match beforeLastDot rest with
    | some p => some (c :: p)
    | none => if c == Char.ofNat 46 then some [] else none

/-- The dotted-name parent of a logger name, as the logging hierarchy walks
it: drop the last dot segment; every non-root name eventually reaches the
root (empty) name, which has no parent. -/
def parentName (s : String) : Option String :=
  if s == "" then none
  else
    match beforeLastDot s.data with
    | none => some ""
    | some p => some (String.mk p)

/-- The chain from a logger up to the root, fuel-bounded (each parent is
strictly shorter, so length + 1 fuel always suffices). -/
def nameChainAux : Nat → String → List String
  | 0, s => [s]
  | k + 1, s =>
    s :: (match parentName s with
          | none => []
          | some p => nameChainAux k p)

/-- The chain from a logger name up to the root logger. -/
def nameChain (s : String) : List String := nameChainAux (s.length + 1) s

/-- Logger.getEffectiveLevel: the first non-NOTSET level walking up the
chain, NOTSET when none is set. -/
def effAux (st : PState) : List String → Nat
  | [] => 0
  | n :: rest =>
    let l := (getLoggerRec st n).level
    if l ≠ 0 then l else effAux st rest

/-- Effective level of a named logger. -/
def effectiveLevel (st : PState) (name : String) : Nat :=
  effAux st (nameChain name)

/-- Logger.callHandlers: collect the handlers along the chain, stopping the
ascent at the first logger whose propagate flag is false. -/
def collectHandlers (st : PState) : List String → List Handler
  | [] => []
  | n :: rest =>
    let r := getLoggerRec st n
    r.handlers ++ (if r.propagate then collectHandlers st rest else [])

/-- The handler instances a record emitted on the given logger at the given
numeric severity is delivered to: the logger must enable the severity, and
each handler receiving it must have its own threshold at or below it. -/
def delivered (st : PState) (name : String) (lvl : Nat) : List Handler :=
  if effectiveLevel st name ≤ lvl then
    (collectHandlers st (nameChain name)).filter (fun h => decide (h.level ≤ lvl))
  else []

/-- Whether such a record reaches the error-only sink. -/
def reachesErrorSink (st : PState) (name : String) (lvl : Nat) : Bool :=
  (delivered st name lvl).any (fun h => h.hname == "error_file")

/-- Decidable success of an Except computation. -/
def isOkB : Except String PState → Bool
  | .ok _ => true
  | .error _ => false

/-- A filesystem on which the logs directory already exists. -/
def fsReady : FS := { dirExists := true, mkdirAllowed := true }

/-- A filesystem on which the logs directory is missing but creatable. -/
def fsNoDir : FS := { dirExists := false, mkdirAllowed := true }

/-- The console handler instance a successful setup_logging attaches. -/
def consoleInst (use_rich : Bool) (lvl : Nat) : Handler :=
  { hname := "console",
    cls := if use_rich then "rich.logging.RichHandler" else "logging.StreamHandler",
    level := lvl, formatter := "simple", stream := some "ext://sys.stdout",
    filename := none, maxBytes := none, backupCount := none, encoding := none }

/-- The general rotating file handler instance a successful setup_logging
attaches: its own threshold is the hard-coded DEBUG. -/
def fileInst (json_logs : Bool) (fname : String) : Handler :=
  { hname := "file", cls := "logging.handlers.RotatingFileHandler", level := 10,
    formatter := if json_logs then "json" else "detailed", stream := none,
    filename := some fname, maxBytes := some 10485760, backupCount := some 5,
    encoding := some "utf8" }

/-- The error-only rotating file handler instance a successful setup_logging
attaches. -/
def errorFileInst (json_logs : Bool) : Handler :=
  { hname := "error_file", cls := "logging.handlers.RotatingFileHandler", level := 40,
    formatter := if json_logs then "json" else "detailed", stream := none,
    filename := some "logs/errors.log", maxBytes := some 10485760,
    backupCount := some 3, encoding := some "utf8" }

/-- The state a successful setup_logging run leaves behind, written out. -/
def postSetup (log_file : Option String) (use_rich json_logs : Bool)
    (lvl : Nat) (st : PState) : PState :=
  let fname := log_file.getD defaultLogFile
  let rootRec : LoggerRec :=
    { level := lvl, handlers := [consoleInst use_rich lvl, fileInst json_logs fname],
      propagate := false }
  let pdRec : LoggerRec :=
    { level := lvl,
      handlers := [consoleInst use_rich lvl, fileInst json_logs fname, errorFileInst json_logs],
      propagate := false }
  let thirdRec : LoggerRec := { level := 30, handlers := [], propagate := true }
  { loggers :=
      upsert (upsert (upsert (upsert (upsert st.loggers "" rootRec)
        "phishing_detection" pdRec) "transformers" thirdRec) "urllib3" thirdRec)
        "requests" thirdRec,
    structlogCfg := if json_logs then some structlogJsonCfg else st.structlogCfg,
    warnFilters := st.warnFilters }

/-- The levels of the handlers named file attached to a logger: observing
the general file sink threshold. -/
def fileHandlerLevels (st : PState) (name : String) : List Nat :=
  ((getLoggerRec st name).handlers.filter (fun x => x.hname == "file")).map Handler.level

/-- A handler with its formatter blanked out. -/
def eraseFmt (x : Handler) : Handler :=
  Handler.mk x.hname x.cls x.level "" x.stream x.filename x.maxBytes x.backupCount
    x.encoding

/-- A registry record with every handler formatter blanked out. -/
def eraseRec (r : LoggerRec) : LoggerRec :=
  LoggerRec.mk r.level (r.handlers.map eraseFmt) r.propagate

/-- Erase every handler formatter in a registry: the frame view used to
compare the json and non-json modes of setup_logging. -/
def eraseHandlerFormatters (ls : List (String × LoggerRec)) : List (String × LoggerRec) :=
  ls.map (fun p => (p.1, eraseRec p.2))

theorem lookupRec_upsert_self (m : List (String × LoggerRec)) (k : String) (v : LoggerRec) :
    lookupRec (upsert m k v) k = some v := by
  induction m with
  | nil => simp [upsert, lookupRec]
  | cons p rest ih =>
    obtain ⟨a, b⟩ := p
    by_cases hk : a = k
    · subst hk
      simp [upsert, lookupRec]
    · simp [upsert, lookupRec, hk, ih]

theorem lookupRec_upsert_ne (m : List (String × LoggerRec)) (k n : String) (v : LoggerRec)
    (h : k ≠ n) : lookupRec (upsert m k v) n = lookupRec m n := by
  induction m with
  | nil => simp [upsert, lookupRec, h]
  | cons p rest ih =>
    obtain ⟨a, b⟩ := p
    by_cases hk : a = k
    · subst hk
      simp [upsert, lookupRec, h]
    · simp [upsert, lookupRec, hk, ih]

theorem getLoggerRec_ensureLogger (st : PState) (n m : String) :
    getLoggerRec (ensureLogger st n) m = getLoggerRec st m := by
  unfold ensureLogger
  cases hl : lookupRec st.loggers n with
  | some v => rfl
  | none =>
    by_cases hm : n = m
    · subst hm
      simp [getLoggerRec, lookupRec_upsert_self, hl]
    · simp [getLoggerRec, lookupRec_upsert_ne _ _ _ _ hm]

theorem ensureLogger_structlog (st : PState) (n : String) :
    (ensureLogger st n).structlogCfg = st.structlogCfg := by
  unfold ensureLogger
  cases lookupRec st.loggers n <;> rfl

theorem ensureLogger_warn (st : PState) (n : String) :
    (ensureLogger st n).warnFilters = st.warnFilters := by
  unfold ensureLogger
  cases lookupRec st.loggers n <;> rfl

theorem getLoggerRec_upsert_self (st : PState) (n : String) (v : LoggerRec) :
    getLoggerRec { st with loggers := upsert st.loggers n v } n = v := by
  simp [getLoggerRec, lookupRec_upsert_self]

theorem getLoggerRec_upsert_ne (st : PState) (n m : String) (v : LoggerRec)
    (h : n ≠ m) :
    getLoggerRec { st with loggers := upsert st.loggers n v } m = getLoggerRec st m := by
  simp [getLoggerRec, lookupRec_upsert_ne _ _ _ _ h]

theorem setLoggerLevel_eq (st : PState) (n : String) (l : Nat) :
    setLoggerLevel st n l =
      PState.mk
        (upsert (ensureLogger st n).loggers n
          (LoggerRec.mk l (getLoggerRec (ensureLogger st n) n).handlers
            (getLoggerRec (ensureLogger st n) n).propagate))
        (ensureLogger st n).structlogCfg (ensureLogger st n).warnFilters := rfl

theorem getLoggerRec_setLoggerLevel_self (st : PState) (n : String) (l : Nat) :
    getLoggerRec (setLoggerLevel st n l) n = { getLoggerRec st n with level := l } := by
  rw [setLoggerLevel_eq, getLoggerRec_upsert_self, getLoggerRec_ensureLogger]

theorem getLoggerRec_setLoggerLevel_ne (st : PState) (n m : String) (l : Nat)
    (h : n ≠ m) : getLoggerRec (setLoggerLevel st n l) m = getLoggerRec st m := by
  rw [setLoggerLevel_eq, getLoggerRec_upsert_ne _ _ _ _ h, getLoggerRec_ensureLogger]

theorem setLoggerLevel_structlog (st : PState) (n : String) (l : Nat) :
    (setLoggerLevel st n l).structlogCfg = st.structlogCfg := by
  unfold setLoggerLevel
  simp [ensureLogger_structlog]

theorem setLoggerLevel_warn (st : PState) (n : String) (l : Nat) :
    (setLoggerLevel st n l).warnFilters = st.warnFilters := by
  unfold setLoggerLevel
  simp [ensureLogger_warn]

/-- Master lemma: with the rich console disabled, a valid level and an
existing logs directory, setup_logging succeeds and produces exactly the
postSetup state. (In rich mode every call raises: dictConfig passes the
console stream key to RichHandler, which accepts no such kwarg.) -/
theorem setup_logging_ok (level : String) (log_file : Option String)
    (use_rich json_logs : Bool) (fs : FS) (st : PState) (lvl : Nat)
    (h : levelNat level = some lvl) (hd : fs.dirExists = true)
    (hr : use_rich = false) :
    setup_logging level log_file use_rich json_logs fs st =
      .ok (postSetup log_file use_rich json_logs lvl st) := by
  subst hr
  have e1 : levelNat "DEBUG" = some 10 := rfl
  have e2 : levelNat "ERROR" = some 40 := rfl
  have e3 : levelNat "WARNING" = some 30 := rfl
  cases json_logs <;>
    simp [setup_logging, buildConfig, applyDictConfig, instantiateHandlers,
      mkHandlerInstance, h, hd, e1, e2, e3, applyLoggerCfgs, applyOneLogger,
      resolveHandlers, postSetup, consoleInst, fileInst, errorFileInst, List.find?,
      getLoggerRec, defaultLogFile, bind, Except.bind, pure, Except.pure,
      Except.map, Except.instMonad]

/-- Inversion: a successful setup_logging forces the rich console off, a
valid level and an existing logs directory, and the result is the postSetup
state. -/
theorem setup_logging_ok_inv (level : String) (log_file : Option String)
    (use_rich json_logs : Bool) (fs : FS) (st st2 : PState)
    (hok : setup_logging level log_file use_rich json_logs fs st = .ok st2) :
    fs.dirExists = true ∧ use_rich = false ∧
      ∃ lvl, levelNat level = some lvl ∧
        st2 = postSetup log_file use_rich json_logs lvl st := by
  cases hr : use_rich with
  | true =>
    exfalso
    subst hr
    cases json_logs <;>
      simp [setup_logging, buildConfig, applyDictConfig, instantiateHandlers,
        mkHandlerInstance, bind, Except.bind, pure, Except.pure,
        Except.map, Except.instMonad] at hok
  | false =>
    subst hr
    cases hlev : levelNat level with
    | none =>
      exfalso
      cases json_logs <;>
        simp [setup_logging, buildConfig, applyDictConfig, instantiateHandlers,
          mkHandlerInstance, hlev, bind, Except.bind, pure, Except.pure,
          Except.map, Except.instMonad] at hok
    | some lvl =>
      cases hd : fs.dirExists with
      | false =>
        exfalso
        have e1 : levelNat "DEBUG" = some 10 := rfl
        cases json_logs <;>
          simp [setup_logging, buildConfig, applyDictConfig, instantiateHandlers,
            mkHandlerInstance, hlev, hd, e1, bind, Except.bind, pure, Except.pure,
            Except.map, Except.instMonad] at hok
      | true =>
        rw [setup_logging_ok level log_file false json_logs fs st lvl hlev hd rfl] at hok
        exact ⟨rfl, rfl, lvl, rfl, (Except.ok.inj hok).symm⟩

theorem getLoggerRec_postSetup_root (log_file : Option String) (use_rich json_logs : Bool)
    (lvl : Nat) (st : PState) :
    getLoggerRec (postSetup log_file use_rich json_logs lvl st) "" =
      LoggerRec.mk lvl
        [consoleInst use_rich lvl, fileInst json_logs (log_file.getD defaultLogFile)]
        false := by
  unfold postSetup getLoggerRec
  simp only []
  rw [lookupRec_upsert_ne _ _ _ _ (by decide), lookupRec_upsert_ne _ _ _ _ (by decide),
    lookupRec_upsert_ne _ _ _ _ (by decide), lookupRec_upsert_ne _ _ _ _ (by decide),
    lookupRec_upsert_self]
  rfl

theorem getLoggerRec_postSetup_pd (log_file : Option String) (use_rich json_logs : Bool)
    (lvl : Nat) (st : PState) :
    getLoggerRec (postSetup log_file use_rich json_logs lvl st) "phishing_detection" =
      LoggerRec.mk lvl
        [consoleInst use_rich lvl, fileInst json_logs (log_file.getD defaultLogFile),
         errorFileInst json_logs]
        false := by
  unfold postSetup getLoggerRec
  simp only []
  rw [lookupRec_upsert_ne _ _ _ _ (by decide), lookupRec_upsert_ne _ _ _ _ (by decide),
    lookupRec_upsert_ne _ _ _ _ (by decide), lookupRec_upsert_self]
  rfl

theorem getLoggerRec_postSetup_transformers (log_file : Option String)
    (use_rich json_logs : Bool) (lvl : Nat) (st : PState) :
    getLoggerRec (postSetup log_file use_rich json_logs lvl st) "transformers" =
      LoggerRec.mk 30 [] true := by
  unfold postSetup getLoggerRec
  simp only []
  rw [lookupRec_upsert_ne _ _ _ _ (by decide), lookupRec_upsert_ne _ _ _ _ (by decide),
    lookupRec_upsert_self]
  rfl

theorem getLoggerRec_postSetup_urllib3 (log_file : Option String)
    (use_rich json_logs : Bool) (lvl : Nat) (st : PState) :
    getLoggerRec (postSetup log_file use_rich json_logs lvl st) "urllib3" =
      LoggerRec.mk 30 [] true := by
  unfold postSetup getLoggerRec
  simp only []
  rw [lookupRec_upsert_ne _ _ _ _ (by decide), lookupRec_upsert_self]
  rfl

theorem getLoggerRec_postSetup_requests (log_file : Option String)
    (use_rich json_logs : Bool) (lvl : Nat) (st : PState) :
    getLoggerRec (postSetup log_file use_rich json_logs lvl st) "requests" =
      LoggerRec.mk 30 [] true := by
  unfold postSetup getLoggerRec
  simp only []
  rw [lookupRec_upsert_self]
  rfl

theorem getLoggerRec_postSetup_other (log_file : Option String)
    (use_rich json_logs : Bool) (lvl : Nat) (st : PState) (m : String)
    (h0 : m ≠ "") (h1 : m ≠ "phishing_detection") (h2 : m ≠ "transformers")
    (h3 : m ≠ "urllib3") (h4 : m ≠ "requests") :
    getLoggerRec (postSetup log_file use_rich json_logs lvl st) m = getLoggerRec st m := by
  unfold postSetup getLoggerRec
  simp only []
  rw [lookupRec_upsert_ne _ _ _ _ (Ne.symm h4), lookupRec_upsert_ne _ _ _ _ (Ne.symm h3),
    lookupRec_upsert_ne _ _ _ _ (Ne.symm h2), lookupRec_upsert_ne _ _ _ _ (Ne.symm h1),
    lookupRec_upsert_ne _ _ _ _ (Ne.symm h0)]

theorem postSetup_structlog (log_file : Option String) (use_rich json_logs : Bool)
    (lvl : Nat) (st : PState) :
    (postSetup log_file use_rich json_logs lvl st).structlogCfg =
      (if json_logs then some structlogJsonCfg else st.structlogCfg) := rfl

theorem postSetup_warn (log_file : Option String) (use_rich json_logs : Bool)
    (lvl : Nat) (st : PState) :
    (postSetup log_file use_rich json_logs lvl st).warnFilters = st.warnFilters := rfl

/-- A level that levelNat accepts is one of the five standard numeric values;
in particular it is not NOTSET. -/
theorem levelNat_values (s : String) (l : Nat) (h : levelNat s = some l) :
    l = 10 ∨ l = 20 ∨ l = 30 ∨ l = 40 ∨ l = 50 := by
  unfold levelNat at h
  split at h <;> simp_all

theorem levelNat_ne_zero (s : String) (l : Nat) (h : levelNat s = some l) : l ≠ 0 := by
  rcases levelNat_values s l h with h1 | h1 | h1 | h1 | h1 <;> omega

theorem nameChain_pd : nameChain "phishing_detection" = ["phishing_detection", ""] := rfl

theorem nameChain_pd_child :
    nameChain "phishing_detection.email" =
      ["phishing_detection.email", "phishing_detection", ""] := rfl

theorem nameChain_root : nameChain "" = [""] := rfl

/-- Claim C1, counterexample: calling setup_logging with configured minimum
INFO (numeric 20) and the rich console disabled (the mode in which the real
call returns) leaves the general file sink of the root logger at its own
threshold DEBUG (10), not at the configured minimum. -/
theorem C1_counterexample :
    (setup_logging "INFO" none false false fsReady initState).map
        (fun st => fileHandlerLevels st "") = .ok [10]
    ∧ levelNat "INFO" = some 20 ∧ (10 : Nat) ≠ 20 := by
  refine ⟨rfl, rfl, by decide⟩

/-- Claim C1 (amended): after every successful setup_logging with configured
minimum level L, the general file sink attached to the root and to the
application-root logger has its own severity threshold fixed at DEBUG, while
the two loggers themselves carry threshold L, so the sink still receives
exactly the records that pass the logger threshold L. -/
theorem C1_general_file_sink_debug (level : String) (log_file : Option String)
    (use_rich json_logs : Bool) (fs : FS) (st st2 : PState) (lvl : Nat)
    (h : levelNat level = some lvl)
    (hok : setup_logging level log_file use_rich json_logs fs st = .ok st2) :
    fileHandlerLevels st2 "" = [10]
    ∧ fileHandlerLevels st2 "phishing_detection" = [10]
    ∧ (getLoggerRec st2 "").level = lvl
    ∧ (getLoggerRec st2 "phishing_detection").level = lvl := by
  obtain ⟨hd, hr, lvl2, h2, rfl⟩ := setup_logging_ok_inv _ _ _ _ _ _ _ hok
  rw [h] at h2
  obtain rfl : lvl2 = lvl := (Option.some.inj h2).symm
  refine ⟨?_, ?_, ?_, ?_⟩ <;>
    simp [fileHandlerLevels, getLoggerRec_postSetup_root, getLoggerRec_postSetup_pd,
      consoleInst, fileInst, errorFileInst]

theorem C1_witness :
    fileHandlerLevels (postSetup none false false 20 initState) "" = [10] :=
  (C1_general_file_sink_debug "INFO" none false false fsReady initState
    (postSetup none false false 20 initState) 20 rfl rfl).1

/-- Claim C2: for two consecutive successful setup_logging calls in one
process, with the first having left handlers on the root logger, the number
of sinks attached to the root logger after the second call equals the number
after the first; repeated initialization does not accumulate handlers,
because dictConfig removes the existing handlers before attaching. -/
theorem C2_idempotent_root_sinks (l1 l2 : String) (f1 f2 : Option String)
    (r1 j1 r2 j2 : Bool) (fs1 fs2 : FS) (st st1 st2 : PState)
    (h1 : setup_logging l1 f1 r1 j1 fs1 st = .ok st1)
    (hpresent : (getLoggerRec st1 "").handlers ≠ [])
    (h2 : setup_logging l2 f2 r2 j2 fs2 st1 = .ok st2) :
    (getLoggerRec st2 "").handlers.length = (getLoggerRec st1 "").handlers.length := by
  obtain ⟨_, _, v1, _, rfl⟩ := setup_logging_ok_inv _ _ _ _ _ _ _ h1
  obtain ⟨_, _, v2, _, rfl⟩ := setup_logging_ok_inv _ _ _ _ _ _ _ h2
  rw [getLoggerRec_postSetup_root, getLoggerRec_postSetup_root]
  rfl

theorem C2_witness :
    (getLoggerRec (postSetup (some "other.log") false true 10
        (postSetup none false false 20 initState)) "").handlers.length =
      (getLoggerRec (postSetup none false false 20 initState) "").handlers.length :=
  C2_idempotent_root_sinks "INFO" "DEBUG" none (some "other.log") false false false true
    fsReady fsReady initState (postSetup none false false 20 initState)
    (postSetup (some "other.log") false true 10 (postSetup none false false 20 initState))
    rfl (by decide) rfl

/-- Claim C5: after setup_logging returns, the root logger carries exactly
the console and general file sinks, and the application-root logger
phishing_detection carries exactly console, general file and error-only. -/
theorem C5_sink_tables (level : String) (log_file : Option String)
    (use_rich json_logs : Bool) (fs : FS) (st st2 : PState)
    (hok : setup_logging level log_file use_rich json_logs fs st = .ok st2) :
    (getLoggerRec st2 "").handlers.map Handler.hname = ["console", "file"]
    ∧ (getLoggerRec st2 "phishing_detection").handlers.map Handler.hname =
        ["console", "file", "error_file"] := by
  obtain ⟨_, _, v, _, rfl⟩ := setup_logging_ok_inv _ _ _ _ _ _ _ hok
  refine ⟨?_, ?_⟩ <;>
    simp [getLoggerRec_postSetup_root, getLoggerRec_postSetup_pd,
      consoleInst, fileInst, errorFileInst]

theorem C5_witness :
    (getLoggerRec (postSetup none false false 20 initState) "").handlers.map
      Handler.hname = ["console", "file"] :=
  (C5_sink_tables "INFO" none false false fsReady initState
    (postSetup none false false 20 initState) rfl).1

/-- Claim C8: after setup_logging, the general file sink rotates at 10 MiB
keeping 5 backups with its threshold at DEBUG, the error-only sink has
threshold ERROR and rotates at 10 MiB keeping 3 backups, and both are opened
with UTF-8 encoding. -/
theorem C8_rotation_and_encoding (level : String) (log_file : Option String)
    (use_rich json_logs : Bool) (fs : FS) (st st2 : PState)
    (hok : setup_logging level log_file use_rich json_logs fs st = .ok st2) :
    ((getLoggerRec st2 "phishing_detection").handlers.find?
        (fun x => x.hname == "file")).map
        (fun x => (x.maxBytes, x.backupCount, x.encoding)) =
      some (some (10 * 1024 * 1024), some 5, some "utf8")
    ∧ ((getLoggerRec st2 "phishing_detection").handlers.find?
        (fun x => x.hname == "error_file")).map
        (fun x => (x.level, x.maxBytes, x.backupCount, x.encoding)) =
      some (40, some (10 * 1024 * 1024), some 3, some "utf8")
    ∧ ((getLoggerRec st2 "").handlers.find? (fun x => x.hname == "file")).map
        (fun x => (x.maxBytes, x.backupCount, x.encoding)) =
      some (some (10 * 1024 * 1024), some 5, some "utf8") := by
  obtain ⟨_, _, v, _, rfl⟩ := setup_logging_ok_inv _ _ _ _ _ _ _ hok
  refine ⟨?_, ?_, ?_⟩ <;>
    simp [getLoggerRec_postSetup_root, getLoggerRec_postSetup_pd, List.find?,
      consoleInst, fileInst, errorFileInst]

theorem C8_witness :
    ((getLoggerRec (postSetup none false false 20 initState) "").handlers.find?
        (fun x => x.hname == "file")).map
        (fun x => (x.maxBytes, x.backupCount, x.encoding)) =
      some (some (10 * 1024 * 1024), some 5, some "utf8") :=
  (C8_rotation_and_encoding "INFO" none false false fsReady initState
    (postSetup none false false 20 initState) rfl).2.2

/-- Claim C4, counterexample: after an initialization at level INFO with
the rich console disabled (the mode in which the real call returns), a
record at severity ERROR (numeric 40) emitted through the root logger does
not reach the error-only sink: that sink is attached only to the
phishing_detection logger and its subtree, so the routing is not
independent of which named logger emitted the record. -/
theorem C4_counterexample :
    (setup_logging "INFO" none false false fsReady initState).map
        (fun st => reachesErrorSink st "" 40) = .ok false := rfl

/-- Claim C4 (amended): after a successful setup_logging at configured level
L, a record emitted through the phishing_detection logger — or through a
descendant of it that was never separately configured, such as
phishing_detection.email, whose records propagate up to it — reaches the
error-only sink exactly when its severity is at least ERROR and at least L;
records emitted through the root logger never reach the error-only sink. -/
theorem C4_error_sink_routing (level : String) (log_file : Option String)
    (use_rich json_logs : Bool) (fs : FS) (st st2 : PState) (lvl : Nat)
    (h : levelNat level = some lvl)
    (hok : setup_logging level log_file use_rich json_logs fs st = .ok st2)
    (hchild : lookupRec st.loggers "phishing_detection.email" = none) :
    (∀ r : Nat, (reachesErrorSink st2 "phishing_detection" r = true ↔ (lvl ≤ r ∧ 40 ≤ r)))
    ∧ (∀ r : Nat,
        (reachesErrorSink st2 "phishing_detection.email" r = true ↔ (lvl ≤ r ∧ 40 ≤ r)))
    ∧ (∀ r : Nat, reachesErrorSink st2 "" r = false) := by
  obtain ⟨hd, hr, lvl2, h2, rfl⟩ := setup_logging_ok_inv _ _ _ _ _ _ _ hok
  rw [h] at h2
  obtain rfl : lvl = lvl2 := Option.some.inj h2
  have hnz : lvl ≠ 0 := levelNat_ne_zero _ _ h
  have hchild2 : getLoggerRec (postSetup log_file use_rich json_logs lvl st)
      "phishing_detection.email" = defaultRec := by
    rw [getLoggerRec_postSetup_other log_file use_rich json_logs lvl st
      "phishing_detection.email" (by decide) (by decide) (by decide) (by decide)
      (by decide)]
    simp [getLoggerRec, hchild]
  refine ⟨?_, ?_, ?_⟩
  · intro r
    by_cases h1 : lvl ≤ r <;> by_cases h4 : 40 ≤ r <;>
      simp [reachesErrorSink, delivered, effectiveLevel, nameChain_pd, effAux,
        collectHandlers, getLoggerRec_postSetup_pd, consoleInst, fileInst,
        errorFileInst, hnz, h1, h4]
  · intro r
    by_cases h1 : lvl ≤ r <;> by_cases h4 : 40 ≤ r <;>
      simp [reachesErrorSink, delivered, effectiveLevel, nameChain_pd_child, effAux,
        collectHandlers, hchild2, defaultRec, getLoggerRec_postSetup_pd, consoleInst,
        fileInst, errorFileInst, hnz, h1, h4]
  · intro r
    by_cases h1 : lvl ≤ r <;>
      simp [reachesErrorSink, delivered, effectiveLevel, nameChain_root, effAux,
        collectHandlers, getLoggerRec_postSetup_root, consoleInst, fileInst,
        errorFileInst, hnz, h1]

theorem C4_witness :
    reachesErrorSink (postSetup none false false 20 initState) "" 45 = false :=
  (C4_error_sink_routing "INFO" none false false fsReady initState
    (postSetup none false false 20 initState) 20 rfl rfl rfl).2.2 45

/-- Claim C3, counterexample: in a fresh process with RICH_LOGS=false the
module import auto-bootstraps at level INFO (numeric 20) and leaves
handlers attached to the root logger; a later explicit
setup_logging("DEBUG", use_rich=False) call is not guarded and succeeds,
replacing the configuration (the root threshold drops to 10). So after
initialization a step within the process lifetime does reapply the
configuration. (The CLI verbose path issues such a call with its rich
default, where it raises on the console handler instead.) -/
theorem C3_counterexample :
    (importLoggerModule envNoRich fsNoDir initState).map
        (fun p => ((getLoggerRec p.2 "").level, (getLoggerRec p.2 "").handlers.isEmpty)) =
      .ok (20, false)
    ∧ ((importLoggerModule envNoRich fsNoDir initState).bind
        (fun p => setup_logging "DEBUG" none false false p.1 p.2)).map
        (fun q => (getLoggerRec q "").level) = .ok 10 := ⟨rfl, rfl⟩

/-- Claim C3 (amended): whenever any handler is already attached to the root
logger, the import-time auto-bootstrap initialization is skipped and the
logging state is left untouched (only the logs directory creation runs); the
guard is one-way within the import path, but it does not protect explicit
setup_logging calls, which replace the configuration when invoked. -/
theorem C3_bootstrap_guard (env : Env) (fs : FS) (st : PState)
    (h : (getLoggerRec st "").handlers ≠ []) :
    importLoggerModule env fs st = (mkdirLogs fs).map (fun f => (f, st)) := by
  have hne : (getLoggerRec st "").handlers.isEmpty = false := by
    cases hh : (getLoggerRec st "").handlers with
    | nil => exact absurd hh h
    | cons a l => rfl
  cases hm : mkdirLogs fs with
  | error e =>
    simp [importLoggerModule, hm, bind, Except.bind, Except.map, Except.instMonad]
  | ok f =>
    simp [importLoggerModule, hm, hne, bind, Except.bind, pure, Except.pure,
      Except.map, Except.instMonad]

theorem C3_witness :
    importLoggerModule defaultEnv fsReady (postSetup none false false 20 initState) =
      (mkdirLogs fsReady).map (fun f => (f, postSetup none false false 20 initState)) :=
  C3_bootstrap_guard defaultEnv fsReady (postSetup none false false 20 initState)
    (by decide)

theorem mkdirLogs_ok (fs fs2 : FS) (hm : mkdirLogs fs = .ok fs2) :
    fs2.dirExists = true := by
  unfold mkdirLogs at hm
  by_cases hd : fs.dirExists
  · simp [hd] at hm
    rw [← hm, hd]
  · simp [hd] at hm
    by_cases ha : fs.mkdirAllowed
    · simp [ha] at hm
      rw [← hm]
    · simp [ha] at hm

theorem setup_ml_logging_eq (st : PState) :
    setup_ml_logging st =
      setLoggerLevel (setLoggerLevel (setLoggerLevel
        (PState.mk st.loggers st.structlogCfg
          ([("UserWarning", "torch"), ("FutureWarning", "transformers"),
            ("UserWarning", "transformers")] ++ st.warnFilters))
        "transformers" 30) "torch" 30) "urllib3" 30 := rfl

theorem getLoggerRec_warnUpdate (st : PState) (w : List (String × String)) (m : String) :
    getLoggerRec (PState.mk st.loggers st.structlogCfg w) m = getLoggerRec st m := rfl

theorem getLoggerRec_setup_ml_root (st : PState) :
    getLoggerRec (setup_ml_logging st) "" = getLoggerRec st "" := by
  rw [setup_ml_logging_eq,
    getLoggerRec_setLoggerLevel_ne _ _ _ _ (by decide),
    getLoggerRec_setLoggerLevel_ne _ _ _ _ (by decide),
    getLoggerRec_setLoggerLevel_ne _ _ _ _ (by decide),
    getLoggerRec_warnUpdate]

theorem getLoggerRec_setup_ml_transformers (st : PState) :
    (getLoggerRec (setup_ml_logging st) "transformers").level = 30 := by
  rw [setup_ml_logging_eq,
    getLoggerRec_setLoggerLevel_ne _ _ _ _ (by decide),
    getLoggerRec_setLoggerLevel_ne _ _ _ _ (by decide),
    getLoggerRec_setLoggerLevel_self]

theorem getLoggerRec_setup_ml_torch (st : PState) :
    (getLoggerRec (setup_ml_logging st) "torch").level = 30 := by
  rw [setup_ml_logging_eq,
    getLoggerRec_setLoggerLevel_ne _ _ _ _ (by decide),
    getLoggerRec_setLoggerLevel_self]

theorem getLoggerRec_setup_ml_urllib3 (st : PState) :
    (getLoggerRec (setup_ml_logging st) "urllib3").level = 30 := by
  rw [setup_ml_logging_eq, getLoggerRec_setLoggerLevel_self]

theorem setup_ml_structlog (st : PState) :
    (setup_ml_logging st).structlogCfg = st.structlogCfg := by
  rw [setup_ml_logging_eq, setLoggerLevel_structlog, setLoggerLevel_structlog,
    setLoggerLevel_structlog]

theorem setup_ml_warn (st : PState) :
    (setup_ml_logging st).warnFilters =
      [("UserWarning", "torch"), ("FutureWarning", "transformers"),
       ("UserWarning", "transformers")] ++ st.warnFilters := by
  rw [setup_ml_logging_eq, setLoggerLevel_warn, setLoggerLevel_warn,
    setLoggerLevel_warn]

/-- Claim C6, code evaluation at the failing input: under the default
environment (RICH_LOGS defaults to true) the auto-bootstrap builds a rich
console handler whose config carries the stream key, which dictConfig
passes to RichHandler as a constructor kwarg; RichHandler accepts no stream
or strm keyword, so the module import raises instead of self-initializing.
With RICH_LOGS=false the bootstrap behaves exactly as the claim describes:
level from LOG_LEVEL (default INFO, numeric 20), structlog untouched
(JSON_LOGS default false), and the third-party noise suppression applied
(transformers, torch, urllib3 at WARNING, the three warnings filters
installed). -/
theorem C6_bootstrap_failing_input :
    importLoggerModule defaultEnv fsReady initState =
      .error "ValueError: Unable to configure handler (RichHandler accepts no stream or strm kwarg)"
    ∧ (importLoggerModule envNoRich fsReady initState).map
        (fun p => ((getLoggerRec p.2 "").level, p.2.structlogCfg,
          (getLoggerRec p.2 "transformers").level,
          (getLoggerRec p.2 "torch").level,
          (getLoggerRec p.2 "urllib3").level, p.2.warnFilters)) =
      .ok (20, none, 30, 30, 30,
        [("UserWarning", "torch"), ("FutureWarning", "transformers"),
         ("UserWarning", "transformers")]) := ⟨rfl, rfl⟩

/-- Claim C7, counterexample: with the logs directory missing though
creatable, a direct setup_logging call (rich console off, the mode in which
the call otherwise returns) fails by propagating the file open error
instead of creating the directory: setup_logging itself does not ensure the
logs directory exists (the module import does). -/
theorem C7_counterexample :
    isOkB (setup_logging "INFO" none false false fsNoDir initState) = false
    ∧ fsNoDir.mkdirAllowed = true := ⟨rfl, rfl⟩

/-- Claim C7 (amended): the logs directory is ensured at module import time,
before any file sink is opened: importing with the directory missing but
creatable creates it, and (with RICH_LOGS=false, so the unrelated rich
console bug does not abort the bootstrap) initialization succeeds with two
root sinks; when creation is not permitted the filesystem error propagates
out of the import; and setup_logging called with the directory missing
propagates the underlying error to its caller. Setup-time filesystem errors
are never swallowed. -/
theorem C7_dir_creation (fs : FS) (h : fs.dirExists = false) :
    isOkB (setup_logging "INFO" none false false fs initState) = false
    ∧ (fs.mkdirAllowed = false →
        importLoggerModule defaultEnv fs initState =
          .error "PermissionError: cannot create logs directory")
    ∧ (fs.mkdirAllowed = true →
        (importLoggerModule envNoRich fs initState).map
          (fun p => (p.1.dirExists, (getLoggerRec p.2 "").handlers.length)) =
        .ok (true, 2)) := by
  obtain ⟨d, m⟩ := fs
  cases d
  · cases m
    · exact ⟨rfl, fun _ => rfl, fun hc => absurd hc (by decide)⟩
    · exact ⟨rfl, fun hc => absurd hc (by decide), fun _ => rfl⟩
  · exact Bool.noConfusion h

theorem C7_witness :
    isOkB (setup_logging "INFO" none false false fsNoDir initState) = false :=
  (C7_dir_creation fsNoDir rfl).1

theorem erase_upsert (m : List (String × LoggerRec)) (k : String) (v : LoggerRec) :
    eraseHandlerFormatters (upsert m k v) =
      upsert (eraseHandlerFormatters m) k (eraseRec v) := by
  induction m with
  | nil => rfl
  | cons p rest ih =>
    obtain ⟨a, b⟩ := p
    by_cases hk : a = k
    · subst hk
      simp [upsert, eraseHandlerFormatters]
    · simp [upsert, eraseHandlerFormatters, hk] at ih ⊢
      exact ih

theorem ensureLogger_idem (st : PState) (n : String) :
    ensureLogger (ensureLogger st n) n = ensureLogger st n := by
  cases hl : lookupRec st.loggers n with
  | some v => simp [ensureLogger, hl]
  | none => simp [ensureLogger, hl, lookupRec_upsert_self]

/-- Claim C9: get_logger is a registry lookup: repeated lookups for a name
return the same handle without creating fresh entries, a supplied standard
level override forces the shared entry threshold to that value (visible to
every holder of the handle) while touching no other registry entry, and
with no override every threshold is left unchanged. -/
theorem C9_get_logger_shared_registry
    (name s : String) (n : Nat) (st st1 st2 stO : PState) (h1 h2 hO : String)
    (hs : pyLevelAttr (upperStr s) = some n) (hsne : s ≠ "")
    (c1 : get_logger name none st = .ok (st1, h1))
    (c2 : get_logger name none st1 = .ok (st2, h2))
    (cO : get_logger name (some s) st = .ok (stO, hO)) :
    h1 = h2 ∧ st2 = st1 ∧ hO = name
    ∧ (getLoggerRec stO name).level = n
    ∧ (∀ m, m ≠ name → getLoggerRec stO m = getLoggerRec st m)
    ∧ (∀ m, getLoggerRec st1 m = getLoggerRec st m) := by
  have hbeq : (s == "") = false := by
    simp [hsne]
  rw [show get_logger name none st = .ok (ensureLogger st name, name) from rfl] at c1
  have e1 := Except.ok.inj c1
  injection e1 with e1a e1b
  subst e1a
  subst e1b
  rw [show get_logger name none (ensureLogger st name) =
      .ok (ensureLogger (ensureLogger st name) name, name) from rfl] at c2
  have e2 := Except.ok.inj c2
  injection e2 with e2a e2b
  subst e2a
  subst e2b
  rw [show get_logger name (some s) st =
      (if s == "" then .ok (ensureLogger st name, name)
       else match pyLevelAttr (upperStr s) with
        | none => .error "AttributeError"
        | some k => .ok (setLoggerLevel (ensureLogger st name) name k, name)) from rfl,
    hbeq] at cO
  simp only [Bool.false_eq_true, if_false, hs] at cO
  have e3 := Except.ok.inj cO
  injection e3 with e3a e3b
  subst e3a
  subst e3b
  refine ⟨rfl, ensureLogger_idem st name, rfl, ?_, ?_, ?_⟩
  · rw [getLoggerRec_setLoggerLevel_self, getLoggerRec_ensureLogger]
  · intro m hm
    rw [getLoggerRec_setLoggerLevel_ne _ _ _ _ (Ne.symm hm), getLoggerRec_ensureLogger]
  · intro m
    rw [getLoggerRec_ensureLogger]

theorem C9_witness :
    (getLoggerRec (setLoggerLevel (ensureLogger initState "a.b") "a.b" 10) "a.b").level
      = 10 :=
  (C9_get_logger_shared_registry "a.b" "debug" 10 initState
    (ensureLogger initState "a.b") (ensureLogger (ensureLogger initState "a.b") "a.b")
    (setLoggerLevel (ensureLogger initState "a.b") "a.b" 10) "a.b" "a.b" "a.b"
    rfl (by decide) rfl rfl rfl).2.2.2.1

/-- Claim C10: when setup_logging runs with the structured-output flag
false, the structlog configuration is left exactly as it was; with the flag
true it becomes the JSON structlog configuration; and apart from that field
and the formatter selection of the sinks, the two modes produce identical
states (same registries up to formatter names, same warnings filters). -/
theorem C10_structlog_frame (level : String) (log_file : Option String)
    (use_rich : Bool) (fs : FS) (st a b : PState)
    (hf : setup_logging level log_file use_rich false fs st = .ok a)
    (ht : setup_logging level log_file use_rich true fs st = .ok b) :
    a.structlogCfg = st.structlogCfg
    ∧ b.structlogCfg = some structlogJsonCfg
    ∧ eraseHandlerFormatters a.loggers = eraseHandlerFormatters b.loggers
    ∧ a.warnFilters = b.warnFilters := by
  obtain ⟨_, _, v1, ha1, rfl⟩ := setup_logging_ok_inv _ _ _ _ _ _ _ hf
  obtain ⟨_, _, v2, ha2, rfl⟩ := setup_logging_ok_inv _ _ _ _ _ _ _ ht
  rw [ha1] at ha2
  obtain rfl : v1 = v2 := Option.some.inj ha2
  refine ⟨rfl, rfl, ?_, rfl⟩
  simp [postSetup, erase_upsert, eraseRec, eraseFmt, consoleInst, fileInst,
    errorFileInst]

theorem C10_witness :
    (postSetup none false false 20 initState).structlogCfg = initState.structlogCfg :=
  (C10_structlog_frame "INFO" none false fsReady initState
    (postSetup none false false 20 initState) (postSetup none false true 20 initState)
    rfl rfl).1

end PhishLog
